import Mathlib

/-
  Verification development for the OpenProject MCP server adapter
  (src/index.ts and the unnamed variant source file).

  The TypeScript handlers are embedded shallowly: each async handler becomes
  a pure Lean function parameterised by the outcomes of its outbound network
  calls (an `Except String _` value per call, mirroring resolved/rejected
  promises), and the observable effects of a handler (the tool response, the
  PATCH request it issued, the ledger it built, whether it created the
  scratch directory) are collected in a result structure.

  JavaScript peculiarities are modelled explicitly:
  - `a?.b` chains on possibly-absent objects become `Option.bind`;
  - `x || dflt` treats the empty string and the number 0 as falsy
    (helpers orFalsy / orFalsyInt below);
  - accessing a property of `undefined` throws a TypeError, modelled as an
    `Except.error` that propagates to the enclosing try/catch;
  - interpolating `undefined` into a template literal yields the text
    "undefined".
-/

namespace OpenProjectMCP

/-- A JSON value, used to model request payloads built by the handlers.
Only the constructors the code needs are present. -/
inductive Json where
  | str : String → Json
  | num : Int → Json
  | obj : List (String × Json) → Json

/-- JavaScript `s.toLowerCase()` (ASCII case-folding, which covers every
status name the handlers compare). Defined structurally over the character
list so that it evaluates on concrete inputs. -/
def toLowerCase (s : String) : String :=
  String.mk (s.data.map Char.toLower)

/-- JavaScript `v || dflt` for a possibly-undefined string `v`:
`undefined` and `""` are falsy. -/
def orFalsy (v : Option String) (dflt : String) : String :=
  match v with
  | none => dflt
  | some s => if s = "" then dflt else s

/-- JavaScript `v || dflt` for a possibly-undefined number `v`:
`undefined` and `0` are falsy. -/
def orFalsyInt (v : Option Int) (dflt : Int) : Int :=
  match v with
  | none => dflt
  | some n => if n = 0 then dflt else n

/- ----------------------------------------------------------------
   Data model (runtime shapes of the OpenProject API JSON documents;
   fields the handlers never read are elided).
   ---------------------------------------------------------------- -/

/-- A hypermedia link. Only `href` is read by the code. -/
structure Link where
  href : String
deriving DecidableEq, Repr

/-- Shape of the `_links` map of a status: the code reads only the self-link. -/
structure StatusLinks where
  self : Link
deriving DecidableEq, Repr

/-- A status catalog entry. The code reads `name` and `_links.self.href`. -/
structure Status where
  name : String
  _links : StatusLinks
deriving DecidableEq, Repr

/-- Shape of `_embedded` in the status collection response. -/
structure StatusesEmbedded where
  elements : List Status
deriving DecidableEq, Repr

/-- Response of `GET /statuses`. -/
structure AvailableStatusesResponse where
  _embedded : StatusesEmbedded
deriving DecidableEq, Repr

/-- A named embedded resource (type, priority): only `name` is read. -/
structure NamedResource where
  name : String
deriving DecidableEq, Repr

/-- An embedded user: only `name` is read. -/
structure User where
  name : String
deriving DecidableEq, Repr

/-- An embedded project: the code reads `name` and `id`. -/
structure Project where
  id : Int
  name : String
deriving DecidableEq, Repr

/-- A formatted-text value (`description`): the code reads `raw`. -/
structure FormattedText where
  format : String
  raw : String
  html : String
deriving DecidableEq, Repr

/-- Shape of `_embedded` in a work package; every lookup in the code uses `?.`,
so each field is optional at runtime. -/
structure WorkPackageEmbedded where
  status : Option Status
  type : Option NamedResource
  priority : Option NamedResource
  project : Option Project
  assignee : Option User
deriving DecidableEq, Repr

/-- A work package document as the handlers read it. Fields accessed
through `?.` or guarded by `||` are optional. -/
structure WorkPackage where
  id : Int
  subject : String
  description : Option FormattedText
  startDate : Option String
  dueDate : Option String
  estimatedTime : Option String
  percentageDone : Option Int
  createdAt : String
  updatedAt : String
  lockVersion : Int
  _embedded : Option WorkPackageEmbedded
deriving DecidableEq, Repr

/-- Shape of `_links` in an attachment. `staticDownloadLocation` may be absent in the
fetched document (the TypeScript index-signature type hides this). -/
structure AttachmentLinks where
  staticDownloadLocation : Option Link
deriving DecidableEq, Repr

/-- An attachment document. -/
structure Attachment where
  id : Int
  fileName : String
  fileSize : Int
  contentType : String
  _links : AttachmentLinks
deriving DecidableEq, Repr

/-- Shape of `_embedded` in the attachment collection response. -/
structure AttachmentsEmbedded where
  elements : List Attachment
deriving DecidableEq, Repr

/-- Response of `GET /work_packages/:id/attachments`. -/
structure AttachmentCollectionResponse where
  total : Int
  _embedded : AttachmentsEmbedded
deriving DecidableEq, Repr

/-- A parsed error document, as far as the client reads it: the runtime
`message` field may be absent even when the body parses as JSON. -/
structure ErrorResponse where
  message : Option String
deriving DecidableEq, Repr

/-- A tool response handed back to the host: the single text content item
plus the `isError` flag (absent flag = `false`). -/
structure ToolResponse where
  text : String
  isError : Bool
deriving DecidableEq, Repr

/- ----------------------------------------------------------------
   Authenticated HTTP client (callOpenProjectAPI).
   ---------------------------------------------------------------- -/

/-- UTF-8 encoding of one character, as a list of byte values
(model of what `Buffer.from` does to each code point). -/
def utf8EncodeCharBytes (c : Char) : List Nat :=
  let n := c.toNat
  if n < 128 then [n]
  else if n < 2048 then [192 + n / 64, 128 + n % 64]
  else if n < 65536 then [224 + n / 4096, 128 + n / 64 % 64, 128 + n % 64]
  else [240 + n / 262144, 128 + n / 4096 % 64, 128 + n / 64 % 64, 128 + n % 64]

/-- UTF-8 bytes of a string (model of `Buffer.from(s)`). -/
def utf8Bytes (s : String) : List Nat :=
  s.data.flatMap utf8EncodeCharBytes

/-- The standard base64 alphabet. -/
def base64Alphabet : List Char :=
  "ABCDEFGHIJKLMNOPQRSTUVWXYZabcdefghijklmnopqrstuvwxyz0123456789+/".data

/-- The base64 digit for a 6-bit value. -/
def base64Digit (n : Nat) : Char :=
  base64Alphabet.getD n ('A')

/-- Standard base64 encoding of a byte list, with padding
(model of the base64 conversion of a Buffer). -/
def base64Encode : List Nat → String
  | [] => ""
  | [a] =>
      String.mk [base64Digit (a / 4), base64Digit (a % 4 * 16), '=', '=']
  | [a, b] =>
      String.mk [base64Digit (a / 4), base64Digit (a % 4 * 16 + b / 16),
        base64Digit (b % 16 * 4), '=']
  | a :: b :: c :: rest =>
      String.mk [base64Digit (a / 4), base64Digit (a % 4 * 16 + b / 16),
        base64Digit (b % 16 * 4 + c / 64), base64Digit (c % 64)]
        ++ base64Encode rest

/-- The Authorization header value the client computes:
`Basic ` followed by base64 of the bytes of `apikey:` + the configured key. -/
def authorizationValue (apiKey : String) : String :=
  "Basic " ++ base64Encode (utf8Bytes ("apikey:" ++ apiKey))

/-- The headers attached to every outbound request. -/
def requestHeaders (apiKey : String) : List (String × String) :=
  [("Authorization", authorizationValue apiKey),
   ("Content-Type", "application/json")]

/-- An HTTP response as the client observes it: numeric status and the raw
body text. -/
structure HttpResponse where
  status : Nat
  bodyText : String
deriving DecidableEq, Repr

/-- Model of `response.ok` of fetch: status in the 200..299 range. -/
def HttpResponse.ok (r : HttpResponse) : Bool :=
  200 ≤ r.status && r.status ≤ 299

/-- The error-classification path of `callOpenProjectAPI`, faithful to the
source: on a non-ok response, try to parse the body as an error document
(`parseErrorBody` models `JSON.parse` followed by the `.message` access);
fall back to the raw text, then to "Unknown error"; throw a message that
embeds the numeric status. On an ok response, decode the body as the
expected type. -/
def callOpenProjectAPI {T : Type} (decodeBody : String → T)
    (parseErrorBody : String → Option ErrorResponse)
    (response : HttpResponse) : Except String T :=
  if response.ok then
    Except.ok (decodeBody response.bodyText)
  else
    let errorMessage :=
      match parseErrorBody response.bodyText with
      | some errorData => orFalsy (errorData.message) "Unknown error"
      | none => orFalsy (some response.bodyText) "Unknown error"
    Except.error ("OpenProject API error (" ++ toString response.status
      ++ "): " ++ errorMessage)

/- ----------------------------------------------------------------
   Response reducer (formatWorkPackage).
   ---------------------------------------------------------------- -/

/-- The flat record the reducer produces. Every field is total: the
structure itself witnesses that no hole can appear. -/
structure FormattedWorkPackage where
  id : Int
  subject : String
  status : String
  type : String
  priority : String
  assignee : String
  project : String
  projectId : Int
  description : String
  createdAt : String
  updatedAt : String
  startDate : String
  dueDate : String
  estimatedTime : String
  percentageDone : Int
  lockVersion : Int
  statuses : List String
deriving DecidableEq, Repr

/-- Shallow embedding of `formatWorkPackage`. -/
def formatWorkPackage (workPackage : WorkPackage)
    (statuses : AvailableStatusesResponse) : FormattedWorkPackage :=
  { id := workPackage.id
    subject := workPackage.subject
    status := orFalsy ((workPackage._embedded.bind (fun e => e.status)).map
      (fun s => s.name)) "Unknown status"
    type := orFalsy ((workPackage._embedded.bind (fun e => e.type)).map
      (fun t => t.name)) "Unknown type"
    priority := orFalsy ((workPackage._embedded.bind (fun e => e.priority)).map
      (fun p => p.name)) "Unknown priority"
    assignee := orFalsy ((workPackage._embedded.bind (fun e => e.assignee)).map
      (fun a => a.name)) "Unassigned"
    project := orFalsy ((workPackage._embedded.bind (fun e => e.project)).map
      (fun p => p.name)) "Unknown project"
    projectId := orFalsyInt ((workPackage._embedded.bind (fun e => e.project)).map
      (fun p => p.id)) 0
    description := orFalsy (workPackage.description.map (fun d => d.raw))
      "No description"
    createdAt := workPackage.createdAt
    updatedAt := workPackage.updatedAt
    startDate := orFalsy (workPackage.startDate) "No start date"
    dueDate := orFalsy (workPackage.dueDate) "No due date"
    estimatedTime := orFalsy (workPackage.estimatedTime) "No estimate"
    percentageDone := orFalsyInt workPackage.percentageDone 0
    lockVersion := workPackage.lockVersion
    statuses := statuses._embedded.elements.map (fun e => e.name) }

/-- A compact textual rendering of the formatted record, standing in for
`JSON.stringify(formatted, null, 2)` in the success text (only the presence
of this block matters to the handlers, not its exact whitespace). -/
def stringifyFormatted (f : FormattedWorkPackage) : String :=
  "\x7b \"id\": " ++ toString f.id
  ++ ", \"subject\": \"" ++ f.subject
  ++ "\", \"status\": \"" ++ f.status
  ++ "\", \"type\": \"" ++ f.type
  ++ "\", \"priority\": \"" ++ f.priority
  ++ "\", \"assignee\": \"" ++ f.assignee
  ++ "\", \"project\": \"" ++ f.project
  ++ "\", \"projectId\": " ++ toString f.projectId
  ++ ", \"description\": \"" ++ f.description
  ++ "\", \"createdAt\": \"" ++ f.createdAt
  ++ "\", \"updatedAt\": \"" ++ f.updatedAt
  ++ "\", \"startDate\": \"" ++ f.startDate
  ++ "\", \"dueDate\": \"" ++ f.dueDate
  ++ "\", \"estimatedTime\": \"" ++ f.estimatedTime
  ++ "\", \"percentageDone\": " ++ toString f.percentageDone
  ++ ", \"lockVersion\": " ++ toString f.lockVersion
  ++ ", \"statuses\": [" ++ String.intercalate (", ") (f.statuses.map
      (fun s => "\"" ++ s ++ "\"")) ++ "] \x7d"

/- ----------------------------------------------------------------
   Tool 2: change_work_package_status.
   ---------------------------------------------------------------- -/

/-- Observable outcome of the change-status handler: the tool response, and
the PATCH request it issued (endpoint and JSON body), if any. -/
structure ChangeStatusResult where
  response : ToolResponse
  patchSent : Option (String × Json)

/-- Shallow embedding of the `change_work_package_status` handler.
`fetchWorkPackage`, `fetchStatuses` and `patchResponse` are the outcomes of
the three outbound calls; an `Except.error` models a rejected promise, which
the try/catch of the handler converts to an error response. -/
def change_work_package_status (workPackageId : Int) (status : String)
    (fetchWorkPackage : Except String WorkPackage)
    (fetchStatuses : Except String AvailableStatusesResponse)
    (patchResponse : Except String WorkPackage) : ChangeStatusResult :=
  match fetchWorkPackage with
  | Except.error e =>
      ⟨⟨"Error updating work package #" ++ toString workPackageId
        ++ " status: " ++ e, true⟩, none⟩
  | Except.ok workPackage =>
    match fetchStatuses with
    | Except.error e =>
        ⟨⟨"Error updating work package #" ++ toString workPackageId
          ++ " status: " ++ e, true⟩, none⟩
    | Except.ok statuses =>
      match statuses._embedded.elements.find?
          (fun s => toLowerCase s.name == toLowerCase status) with
      | none =>
        let availableStatusNames := String.intercalate (", ")
          (statuses._embedded.elements.map (fun s => s.name))
        ⟨⟨"Error: Status \"" ++ status
          ++ "\" is not available for work package #"
          ++ toString workPackageId ++ ". Available statuses are: "
          ++ availableStatusNames, true⟩, none⟩
      | some targetStatus =>
        let updatePayload : Json := Json.obj
          [("lockVersion", Json.num workPackage.lockVersion),
           ("_links", Json.obj
             [("status", Json.obj
               [("href", Json.str targetStatus._links.self.href)])])]
        let endpoint := "/work_packages/" ++ toString workPackageId
        match patchResponse with
        | Except.error e =>
            ⟨⟨"Error updating work package #" ++ toString workPackageId
              ++ " status: " ++ e, true⟩, some (endpoint, updatePayload)⟩
        | Except.ok updatedWorkPackage =>
          let formattedWorkPackage := formatWorkPackage updatedWorkPackage statuses
          ⟨⟨"Successfully updated work package #" ++ toString workPackageId
            ++ " status from \""
            ++ (match workPackage._embedded.bind (fun e => e.status) with
                | some s => s.name
                | none => "undefined")
            ++ "\" to \"" ++ targetStatus.name
            ++ "\".\n\nUpdated work package:\n"
            ++ stringifyFormatted formattedWorkPackage, false⟩,
           some (endpoint, updatePayload)⟩

/- ----------------------------------------------------------------
   Tool 3: download_work_package_attachments.
   ---------------------------------------------------------------- -/

/-- A record of a successfully downloaded file (the `downloadedFiles` entry). -/
structure DownloadedFile where
  id : Int
  fileName : String
  filePath : String
  fileSize : Int
  contentType : String
deriving DecidableEq, Repr

/-- An entry of the `fileMapping` array built at the end of the handler. -/
structure FileMapEntry where
  id : Int
  filePath : String
  contentType : String
deriving DecidableEq, Repr

/-- The destination path of one attachment:
`path.join(tempDir, id + "." + fileName)`. -/
def attachmentFilePath (tempDir : String) (attachment : Attachment) : String :=
  tempDir ++ "/" ++ toString attachment.id ++ "." ++ attachment.fileName

/-- The TypeError message thrown by reading `.href` of an absent link. -/
def hrefTypeError : String :=
  "Cannot read properties of undefined (reading href)"

/-- The per-attachment loop of the handler. The source reads
`attachment._links.staticDownloadLocation.href` without optional chaining,
so an absent link object throws (modelled as `Except.error`), aborting the
loop; an empty `href` is the falsy `downloadUrl` that is skipped.
`downloadFile` is the outcome oracle of the network transfer per
(url, filePath). Returns (downloadResults, downloadedFiles). -/
def processAttachments (downloadFile : String → String → Except String Unit)
    (tempDir : String) :
    List Attachment → Except String (List String × List DownloadedFile)
  | [] => Except.ok ([], [])
  | attachment :: rest =>
    match attachment._links.staticDownloadLocation with
    | none => Except.error hrefTypeError
    | some link =>
      let downloadUrl := link.href
      if downloadUrl = "" then
        match processAttachments downloadFile tempDir rest with
        | Except.error e => Except.error e
        | Except.ok (results, files) =>
            Except.ok (("⚠️ Skipped " ++ attachment.fileName ++ " (ID: "
              ++ toString attachment.id ++ "): Download URL not available")
              :: results, files)
      else
        let filePath := attachmentFilePath tempDir attachment
        match downloadFile downloadUrl filePath with
        | Except.ok _ =>
          match processAttachments downloadFile tempDir rest with
          | Except.error e => Except.error e
          | Except.ok (results, files) =>
              Except.ok (("✅ Downloaded " ++ attachment.fileName ++ " (ID: "
                ++ toString attachment.id ++ ")") :: results,
                ({ id := attachment.id, fileName := attachment.fileName,
                   filePath := filePath, fileSize := attachment.fileSize,
                   contentType := attachment.contentType } : DownloadedFile)
                :: files)
        | Except.error err =>
          match processAttachments downloadFile tempDir rest with
          | Except.error e => Except.error e
          | Except.ok (results, files) =>
              Except.ok (("❌ Failed to download " ++ attachment.fileName
                ++ " (ID: " ++ toString attachment.id ++ "): " ++ err)
                :: results, files)

/-- A compact rendering standing in for `JSON.stringify(fileMapping, null, 2)`. -/
def stringifyFileMapping (mapping : List FileMapEntry) : String :=
  "[" ++ String.intercalate (", ") (mapping.map (fun f =>
    "\x7b \"id\": " ++ toString f.id ++ ", \"filePath\": \"" ++ f.filePath
    ++ "\", \"contentType\": \"" ++ f.contentType ++ "\" \x7d")) ++ "]"

/-- Observable outcome of the download handler: the tool response, the
per-attachment ledger it built, the file mapping, and whether it performed
the ensure-scratch-directory step. -/
structure DownloadResult where
  response : ToolResponse
  downloadResults : List String
  fileMapping : List FileMapEntry
  tempDirEnsured : Bool

/-- Shallow embedding of the `download_work_package_attachments` handler.
`fetchAttachments` is the outcome of the collection fetch, `downloadFile`
the per-transfer oracle, and `tmpdir` models `os.tmpdir()`. -/
def download_work_package_attachments (workPackageId : Int)
    (fetchAttachments : Except String AttachmentCollectionResponse)
    (downloadFile : String → String → Except String Unit)
    (tmpdir : String) : DownloadResult :=
  match fetchAttachments with
  | Except.error e =>
      ⟨⟨"Error processing attachments for work package #"
        ++ toString workPackageId ++ ": " ++ e, true⟩, [], [], false⟩
  | Except.ok attachments =>
    if attachments.total = 0 then
      ⟨⟨"No attachments found for work package #" ++ toString workPackageId
        ++ ".", false⟩, [], [], false⟩
    else
      let tempDir := tmpdir ++ "/openproject/" ++ toString workPackageId
      match processAttachments downloadFile tempDir
          attachments._embedded.elements with
      | Except.error e =>
          ⟨⟨"Error processing attachments for work package #"
            ++ toString workPackageId ++ ": " ++ e, true⟩, [], [], true⟩
      | Except.ok (downloadResults, downloadedFiles) =>
        let fileMapping := downloadedFiles.map (fun file =>
          ({ id := file.id, filePath := file.filePath,
             contentType := file.contentType } : FileMapEntry))
        ⟨⟨"Download results for work package #" ++ toString workPackageId
          ++ ":\n" ++ String.intercalate ("\n") downloadResults
          ++ "\n\nFiles saved to: " ++ tempDir ++ "\n\nFile mapping:\n"
          ++ stringifyFileMapping fileMapping, false⟩,
         downloadResults, fileMapping, true⟩

/- Ledger-entry classifiers, phrased on the first character of an entry
(each entry string the loop produces starts with a distinct marker). -/

/-- An entry marked failed (starts with the cross-mark marker). -/
def ledgerFailed (s : String) : Bool :=
  s.data.head? == some ('❌')

/-- An entry marked downloaded (starts with the check-mark marker). -/
def ledgerDownloaded (s : String) : Bool :=
  s.data.head? == some ('✅')

/-- An entry marked skipped (starts with the warning-sign marker). -/
def ledgerSkipped (s : String) : Bool :=
  s.data.head? == some ('⚠')

/-- Whether the transfer of one attachment is attempted and fails, under the
oracle `downloadFile` (link present, url non-falsy, transfer errors). -/
def transferFails (downloadFile : String → String → Except String Unit)
    (tempDir : String) (attachment : Attachment) : Bool :=
  match attachment._links.staticDownloadLocation with
  | none => false
  | some link =>
    if link.href = "" then false
    else
      match downloadFile link.href (attachmentFilePath tempDir attachment) with
      | Except.ok _ => false
      | Except.error _ => true

/-- The ledger entry the loop produces for one attachment whose download
link object is present (the only case in which the loop continues). -/
def ledgerEntry (downloadFile : String → String → Except String Unit)
    (tempDir : String) (attachment : Attachment) : String :=
  match attachment._links.staticDownloadLocation with
  | none => hrefTypeError
  | some link =>
    if link.href = "" then
      ("⚠️ Skipped " ++ attachment.fileName ++ " (ID: "
        ++ toString attachment.id ++ "): Download URL not available")
    else
      match downloadFile link.href (attachmentFilePath tempDir attachment) with
      | Except.ok _ =>
          "✅ Downloaded " ++ attachment.fileName ++ " (ID: "
            ++ toString attachment.id ++ ")"
      | Except.error err =>
          "❌ Failed to download " ++ attachment.fileName ++ " (ID: "
            ++ toString attachment.id ++ "): " ++ err

/- ----------------------------------------------------------------
   Concrete fixtures (the scenario of spec section 8: item 42, catalog
   New / In Progress / Closed, current status New).
   ---------------------------------------------------------------- -/

/-- Catalog entry "New". -/
def newStatus : Status := ⟨"New", ⟨⟨"/api/v3/statuses/1"⟩⟩⟩

/-- Catalog entry "In Progress". -/
def inProgressStatus : Status := ⟨"In Progress", ⟨⟨"/api/v3/statuses/7"⟩⟩⟩

/-- Catalog entry "Closed". -/
def closedStatus : Status := ⟨"Closed", ⟨⟨"/api/v3/statuses/13"⟩⟩⟩

/-- A three-entry status catalog in catalog order. -/
def sampleCatalog : AvailableStatusesResponse :=
  ⟨⟨[newStatus, inProgressStatus, closedStatus]⟩⟩

/-- A fetched work package, currently in status "New", lockVersion 5. -/
def sampleWorkPackage : WorkPackage :=
  { id := 42
    subject := "Fix login"
    description := none
    startDate := none
    dueDate := none
    estimatedTime := none
    percentageDone := none
    createdAt := "2024-01-01T00:00:00Z"
    updatedAt := "2024-01-02T00:00:00Z"
    lockVersion := 5
    _embedded := some
      { status := some newStatus
        type := none
        priority := none
        project := none
        assignee := none } }

/-- The remote PATCH response: the same work package, now Closed,
lockVersion bumped by the remote. -/
def sampleUpdatedWorkPackage : WorkPackage :=
  { sampleWorkPackage with
    lockVersion := 6
    _embedded := some
      { status := some closedStatus
        type := none
        priority := none
        project := none
        assignee := none } }

/- ----------------------------------------------------------------
   Theorems.
   ---------------------------------------------------------------- -/

/-- C1: whenever the status resolution succeeds (the case-insensitive find
returns a catalog entry), the PATCH request body sent to the remote system
is exactly the object with the lockVersion of the fetched work package
copied unchanged and a single _links.status entry holding the self-link
href of the matched entry — no other field — regardless of how the PATCH turns out. -/
theorem c1_update_payload_minimal (workPackageId : Int) (status : String)
    (wp : WorkPackage) (sts : AvailableStatusesResponse)
    (patchResponse : Except String WorkPackage) (targetStatus : Status)
    (hfind : sts._embedded.elements.find?
        (fun s => toLowerCase s.name == toLowerCase status) = some targetStatus) :
    (change_work_package_status workPackageId status (Except.ok wp)
        (Except.ok sts) patchResponse).patchSent
      = some ("/work_packages/" ++ toString workPackageId,
          Json.obj [("lockVersion", Json.num wp.lockVersion),
            ("_links", Json.obj [("status", Json.obj
              [("href", Json.str targetStatus._links.self.href)])])]) := by
  cases patchResponse with
  | error e => simp [change_work_package_status, hfind]
  | ok uwp => simp [change_work_package_status, hfind]

/-- Witness for C1: the concrete scenario, requesting "closed" with the
remote accepting the PATCH. -/
theorem c1_update_payload_minimal_witness :
    sampleCatalog._embedded.elements.find?
        (fun s => toLowerCase s.name == toLowerCase ("closed")) = some closedStatus
    ∧ (change_work_package_status 42 "closed" (Except.ok sampleWorkPackage)
        (Except.ok sampleCatalog)
        (Except.ok sampleUpdatedWorkPackage)).patchSent
      = some ("/work_packages/" ++ toString (42 : Int),
          Json.obj [("lockVersion", Json.num sampleWorkPackage.lockVersion),
            ("_links", Json.obj [("status", Json.obj
              [("href", Json.str closedStatus._links.self.href)])])]) :=
  ⟨by decide, c1_update_payload_minimal 42 "closed" sampleWorkPackage
    sampleCatalog (Except.ok sampleUpdatedWorkPackage) closedStatus (by decide)⟩

/-- C2: for every input whose name matches a catalog entry under
case-insensitive comparison (the catalog having case-insensitively unique
names, as the spec assumes), the operation succeeds and its success message
reports the transition target under the canonical-cased catalog name,
quoted after "to". -/
theorem c2_case_insensitive_canonical (workPackageId : Int) (status : String)
    (wp uwp : WorkPackage) (sts : AvailableStatusesResponse) (entry : Status)
    (hmem : entry ∈ sts._embedded.elements)
    (hmatch : toLowerCase entry.name = toLowerCase status)
    (huniq : ∀ a ∈ sts._embedded.elements, ∀ b ∈ sts._embedded.elements,
        toLowerCase a.name = toLowerCase b.name → a = b) :
    (change_work_package_status workPackageId status (Except.ok wp)
        (Except.ok sts) (Except.ok uwp)).response.isError = false
    ∧ ∃ pre post,
        (change_work_package_status workPackageId status (Except.ok wp)
            (Except.ok sts) (Except.ok uwp)).response.text
          = pre ++ ("\" to \"" ++ entry.name
              ++ "\".\n\nUpdated work package:\n") ++ post := by
  have h1 : (sts._embedded.elements.find?
      (fun s => toLowerCase s.name == toLowerCase status)).isSome := by
    rw [List.find?_isSome]
    exact ⟨entry, hmem, by simp [hmatch]⟩
  obtain ⟨t, ht⟩ := Option.isSome_iff_exists.mp h1
  have hpt : toLowerCase t.name = toLowerCase status := by
    have := List.find?_some ht
    simpa using this
  have htmem : t ∈ sts._embedded.elements := List.mem_of_find?_eq_some ht
  have hte : t = entry := huniq t htmem entry hmem (by rw [hpt, hmatch])
  have hfind : sts._embedded.elements.find?
      (fun s => toLowerCase s.name == toLowerCase status) = some entry := by
    rw [ht, hte]
  refine ⟨by simp [change_work_package_status, hfind], ?_⟩
  refine ⟨"Successfully updated work package #" ++ toString workPackageId
      ++ " status from \""
      ++ (match wp._embedded.bind (fun e => e.status) with
          | some s => s.name
          | none => "undefined"),
    stringifyFormatted (formatWorkPackage uwp sts), ?_⟩
  simp [change_work_package_status, hfind, String.append_assoc]

/-- Witness for C2: the concrete scenario, input "closed" against catalog
entry "Closed". -/
theorem c2_case_insensitive_canonical_witness :
    closedStatus ∈ sampleCatalog._embedded.elements
    ∧ toLowerCase closedStatus.name = toLowerCase ("closed")
    ∧ (∀ a ∈ sampleCatalog._embedded.elements,
        ∀ b ∈ sampleCatalog._embedded.elements,
          toLowerCase a.name = toLowerCase b.name → a = b)
    ∧ (change_work_package_status 42 "closed" (Except.ok sampleWorkPackage)
        (Except.ok sampleCatalog)
        (Except.ok sampleUpdatedWorkPackage)).response.isError = false
    ∧ ∃ pre post,
        (change_work_package_status 42 "closed" (Except.ok sampleWorkPackage)
            (Except.ok sampleCatalog)
            (Except.ok sampleUpdatedWorkPackage)).response.text
          = pre ++ ("\" to \"" ++ closedStatus.name
              ++ "\".\n\nUpdated work package:\n") ++ post := by
  have h := c2_case_insensitive_canonical 42 "closed" sampleWorkPackage
    sampleUpdatedWorkPackage sampleCatalog closedStatus (by decide) (by decide)
    (by decide)
  exact ⟨by decide, by decide, by decide, h.1, h.2⟩

/-- C3: for every input with no case-insensitive match in the catalog, the
operation returns a failure response, sends no PATCH, and its message names
the invalid status and ends with every catalog name, comma-joined, in
catalog order. -/
theorem c3_no_match_failure (workPackageId : Int) (status : String)
    (wp : WorkPackage) (sts : AvailableStatusesResponse)
    (patchResponse : Except String WorkPackage)
    (hnone : ∀ s ∈ sts._embedded.elements, toLowerCase s.name ≠ toLowerCase status) :
    (change_work_package_status workPackageId status (Except.ok wp)
        (Except.ok sts) patchResponse).response.isError = true
    ∧ (change_work_package_status workPackageId status (Except.ok wp)
        (Except.ok sts) patchResponse).patchSent = none
    ∧ (change_work_package_status workPackageId status (Except.ok wp)
        (Except.ok sts) patchResponse).response.text
        = "Error: Status \"" ++ status
          ++ "\" is not available for work package #"
          ++ toString workPackageId ++ ". Available statuses are: "
          ++ String.intercalate (", ")
              (sts._embedded.elements.map (fun s => s.name)) := by
  have hfind : sts._embedded.elements.find?
      (fun s => toLowerCase s.name == toLowerCase status) = none := by
    rw [List.find?_eq_none]
    intro x hx
    simp [hnone x hx]
  refine ⟨?_, ?_, ?_⟩ <;> simp [change_work_package_status, hfind]

/-- Witness for C3: the concrete scenario, requesting the unknown status
"cancelled"; the message lists "New, In Progress, Closed". -/
theorem c3_no_match_failure_witness :
    (∀ s ∈ sampleCatalog._embedded.elements,
        toLowerCase s.name ≠ toLowerCase ("cancelled"))
    ∧ (change_work_package_status 42 "cancelled"
        (Except.ok sampleWorkPackage) (Except.ok sampleCatalog)
        (Except.ok sampleUpdatedWorkPackage)).response.isError = true
    ∧ (change_work_package_status 42 "cancelled"
        (Except.ok sampleWorkPackage) (Except.ok sampleCatalog)
        (Except.ok sampleUpdatedWorkPackage)).patchSent = none
    ∧ (change_work_package_status 42 "cancelled"
        (Except.ok sampleWorkPackage) (Except.ok sampleCatalog)
        (Except.ok sampleUpdatedWorkPackage)).response.text
        = "Error: Status \"" ++ "cancelled"
          ++ "\" is not available for work package #"
          ++ toString (42 : Int) ++ ". Available statuses are: "
          ++ String.intercalate (", ")
              (sampleCatalog._embedded.elements.map (fun s => s.name)) := by
  have h := c3_no_match_failure 42 "cancelled" sampleWorkPackage sampleCatalog
    (Except.ok sampleUpdatedWorkPackage) (by decide)
  exact ⟨by decide, h.1, h.2.1, h.2.2⟩


/-- C8: for every configured key, the Authorization header value of every
outbound request equals "Basic " followed by the base64 encoding of the
byte string "apikey:" concatenated with the bytes of the key. -/
theorem c8_authorization_header (apiKey : String) :
    (requestHeaders apiKey).lookup ("Authorization")
      = some ("Basic " ++ base64Encode (utf8Bytes ("apikey:") ++ utf8Bytes apiKey)) := by
  have h : utf8Bytes ("apikey:" ++ apiKey) = utf8Bytes ("apikey:") ++ utf8Bytes apiKey := by
    simp [utf8Bytes, String.data_append]
  simp [requestHeaders, authorizationValue, h, List.lookup]

/-- C7: for every HTTP response with a non-success status, the client
produces a failure (never a success value) whose message embeds the numeric
status code, together with a message resolved as: the parsed error document
message field when the body parses as JSON and carries a non-empty message,
otherwise the raw body text when the body does not parse and is non-empty,
otherwise the non-empty fallback "Unknown error". -/
theorem c7_error_classification {T : Type} (decodeBody : String → T)
    (parseErrorBody : String → Option ErrorResponse) (response : HttpResponse)
    (h : response.ok = false) :
    ∃ m : String,
      callOpenProjectAPI decodeBody parseErrorBody response
        = Except.error ("OpenProject API error (" ++ toString response.status
            ++ "): " ++ m)
      ∧ m ≠ ""
      ∧ ((∃ errorData, parseErrorBody response.bodyText = some errorData
            ∧ errorData.message = some m)
         ∨ (parseErrorBody response.bodyText = none
            ∧ response.bodyText ≠ "" ∧ m = response.bodyText)
         ∨ m = "Unknown error") := by
  unfold callOpenProjectAPI
  rw [h]
  simp only [Bool.false_eq_true, if_false]
  cases hp : parseErrorBody response.bodyText with
  | none =>
    by_cases hb : response.bodyText = ""
    · exact ⟨"Unknown error", by simp [orFalsy, hb], by decide, Or.inr (Or.inr rfl)⟩
    · exact ⟨response.bodyText, by simp [orFalsy, hb], hb,
        Or.inr (Or.inl ⟨rfl, hb, rfl⟩)⟩
  | some errorData =>
    cases hm : errorData.message with
    | none =>
      exact ⟨"Unknown error", by simp [orFalsy, hm], by decide, Or.inr (Or.inr rfl)⟩
    | some s =>
      by_cases hs : s = ""
      · exact ⟨"Unknown error", by simp [orFalsy, hm, hs], by decide,
          Or.inr (Or.inr rfl)⟩
      · exact ⟨s, by simp [orFalsy, hm, hs], hs, Or.inl ⟨errorData, rfl, hm⟩⟩

/-- Witness for C7 at a concrete input: a 404 response whose body parses to
an error document with message "Not found". -/
theorem c7_error_classification_witness :
    (HttpResponse.ok ⟨404, "nf"⟩) = false
    ∧ ∃ m : String,
        callOpenProjectAPI (fun s => s)
          (fun _ => some { message := some ("Not found") }) ⟨404, "nf"⟩
          = Except.error ("OpenProject API error (" ++ toString (404 : Nat)
              ++ "): " ++ m)
        ∧ m ≠ ""
        ∧ ((∃ errorData, (fun (_ : String) =>
              some ({ message := some ("Not found") } : ErrorResponse)) "nf"
                = some errorData ∧ errorData.message = some m)
           ∨ ((fun (_ : String) =>
                some ({ message := some ("Not found") } : ErrorResponse)) "nf" = none
              ∧ "nf" ≠ "" ∧ m = "nf")
           ∨ m = "Unknown error") :=
  ⟨rfl, c7_error_classification (fun s => s)
    (fun _ => some { message := some ("Not found") }) ⟨404, "nf"⟩ rfl⟩

/-- C9: the reducer replaces every absent optional field by its fixed
placeholder (assignee → "Unassigned", description → "No description",
start date → "No start date", due date → "No due date", estimate →
"No estimate", completion percentage → 0), and the record carries the list
of all status names of the catalog passed in; every field of the projected
record has a total type, so no null/undefined hole can appear. -/
theorem c9_reducer_defaults (wp : WorkPackage) (sts : AvailableStatusesResponse) :
    ((wp._embedded.bind (fun e => e.assignee)) = none
        → (formatWorkPackage wp sts).assignee = "Unassigned")
    ∧ (wp.description = none
        → (formatWorkPackage wp sts).description = "No description")
    ∧ (wp.startDate = none
        → (formatWorkPackage wp sts).startDate = "No start date")
    ∧ (wp.dueDate = none
        → (formatWorkPackage wp sts).dueDate = "No due date")
    ∧ (wp.estimatedTime = none
        → (formatWorkPackage wp sts).estimatedTime = "No estimate")
    ∧ (wp.percentageDone = none
        → (formatWorkPackage wp sts).percentageDone = 0)
    ∧ (formatWorkPackage wp sts).statuses
        = sts._embedded.elements.map (fun e => e.name) := by
  refine ⟨fun h => ?_, fun h => ?_, fun h => ?_, fun h => ?_, fun h => ?_,
    fun h => ?_, ?_⟩ <;>
    simp [formatWorkPackage, orFalsy, orFalsyInt, *]

/-- Witness for C9 at a concrete input: a work package with every optional
field absent, and a two-entry catalog. -/
theorem c9_reducer_defaults_witness :
    (formatWorkPackage
        { id := 1, subject := "s", description := none, startDate := none,
          dueDate := none, estimatedTime := none, percentageDone := none,
          createdAt := "c", updatedAt := "u", lockVersion := 3,
          _embedded := none }
        { _embedded := { elements := [⟨"New", ⟨⟨"/s/1"⟩⟩⟩, ⟨"Closed", ⟨⟨"/s/2"⟩⟩⟩] } }).assignee
      = "Unassigned"
    ∧ (formatWorkPackage
        { id := 1, subject := "s", description := none, startDate := none,
          dueDate := none, estimatedTime := none, percentageDone := none,
          createdAt := "c", updatedAt := "u", lockVersion := 3,
          _embedded := none }
        { _embedded := { elements := [⟨"New", ⟨⟨"/s/1"⟩⟩⟩, ⟨"Closed", ⟨⟨"/s/2"⟩⟩⟩] } }).description
      = "No description"
    ∧ (formatWorkPackage
        { id := 1, subject := "s", description := none, startDate := none,
          dueDate := none, estimatedTime := none, percentageDone := none,
          createdAt := "c", updatedAt := "u", lockVersion := 3,
          _embedded := none }
        { _embedded := { elements := [⟨"New", ⟨⟨"/s/1"⟩⟩⟩, ⟨"Closed", ⟨⟨"/s/2"⟩⟩⟩] } }).statuses
      = ["New", "Closed"] := by
  have h := c9_reducer_defaults
    { id := 1, subject := "s", description := none, startDate := none,
      dueDate := none, estimatedTime := none, percentageDone := none,
      createdAt := "c", updatedAt := "u", lockVersion := 3,
      _embedded := none }
    { _embedded := { elements := [⟨"New", ⟨⟨"/s/1"⟩⟩⟩, ⟨"Closed", ⟨⟨"/s/2"⟩⟩⟩] } }
  exact ⟨h.1 rfl, h.2.1 rfl, h.2.2.2.2.2.2⟩

/-- C10 (implicit): the reducer conflates present-but-falsy values with
absent ones — a work item whose description has empty raw text, whose
start/due date or estimate is the empty string, or whose percentageDone is
0, is projected to exactly the same record as one where that field is
absent. -/
theorem c10_falsy_conflation (wp : WorkPackage) (sts : AvailableStatusesResponse)
    (fmt html : String) :
    formatWorkPackage { wp with description := some ⟨fmt, "", html⟩ } sts
      = formatWorkPackage { wp with description := none } sts
    ∧ formatWorkPackage { wp with startDate := some ("") } sts
      = formatWorkPackage { wp with startDate := none } sts
    ∧ formatWorkPackage { wp with dueDate := some ("") } sts
      = formatWorkPackage { wp with dueDate := none } sts
    ∧ formatWorkPackage { wp with estimatedTime := some ("") } sts
      = formatWorkPackage { wp with estimatedTime := none } sts
    ∧ formatWorkPackage { wp with percentageDone := some 0 } sts
      = formatWorkPackage { wp with percentageDone := none } sts := by
  refine ⟨?_, ?_, ?_, ?_, ?_⟩ <;>
    simp [formatWorkPackage, orFalsy, orFalsyInt]

/- ----------------------------------------------------------------
   Attachment-fetcher lemmas and theorems (C4, C5, C6).
   ---------------------------------------------------------------- -/

/-- The `downloadedFiles` record the loop produces for one attachment
(none when it is skipped or its transfer fails). -/
def downloadRecord (downloadFile : String → String → Except String Unit)
    (tempDir : String) (attachment : Attachment) : Option DownloadedFile :=
  match attachment._links.staticDownloadLocation with
  | none => none
  | some link =>
    if link.href = "" then none
    else
      match downloadFile link.href (attachmentFilePath tempDir attachment) with
      | Except.ok _ => some
          { id := attachment.id
            fileName := attachment.fileName
            filePath := attachmentFilePath tempDir attachment
            fileSize := attachment.fileSize
            contentType := attachment.contentType }
      | Except.error _ => none

/-- When every download link object is present, the loop never
throws: it returns the per-attachment ledger in collection order and the
records of the successful downloads. -/
theorem processAttachments_ok (downloadFile : String → String → Except String Unit)
    (tempDir : String) (l : List Attachment)
    (h : ∀ a ∈ l, (a._links.staticDownloadLocation).isSome = true) :
    processAttachments downloadFile tempDir l
      = Except.ok (l.map (ledgerEntry downloadFile tempDir),
          l.filterMap (downloadRecord downloadFile tempDir)) := by
  induction l with
  | nil => simp [processAttachments]
  | cons a rest ih =>
    obtain ⟨link, hlink⟩ := Option.isSome_iff_exists.mp
      (h a (List.mem_cons_self a rest))
    have hrest := ih (fun x hx => h x (List.mem_cons_of_mem a hx))
    by_cases he : link.href = ""
    · simp [processAttachments, hlink, he, hrest, ledgerEntry, downloadRecord]
    · cases hd : downloadFile link.href (attachmentFilePath tempDir a) with
      | ok u =>
        simp [processAttachments, hlink, he, hd, hrest, ledgerEntry,
          downloadRecord]
      | error err =>
        simp [processAttachments, hlink, he, hd, hrest, ledgerEntry,
          downloadRecord]

/-- Each produced ledger entry is marked failed exactly when the transfer
was attempted and failed, and every entry is marked failed, downloaded or
skipped. -/
theorem ledgerEntry_classified (downloadFile : String → String → Except String Unit)
    (tempDir : String) (a : Attachment)
    (h : (a._links.staticDownloadLocation).isSome = true) :
    ledgerFailed (ledgerEntry downloadFile tempDir a)
        = transferFails downloadFile tempDir a
    ∧ (ledgerFailed (ledgerEntry downloadFile tempDir a) = true
       ∨ ledgerDownloaded (ledgerEntry downloadFile tempDir a) = true
       ∨ ledgerSkipped (ledgerEntry downloadFile tempDir a) = true) := by
  obtain ⟨link, hlink⟩ := Option.isSome_iff_exists.mp h
  by_cases he : link.href = ""
  · constructor
    · simp [ledgerEntry, transferFails, hlink, he, ledgerFailed]
    · right; right
      simp [ledgerEntry, hlink, he, ledgerSkipped]
  · cases hd : downloadFile link.href (attachmentFilePath tempDir a) with
    | ok u =>
      constructor
      · simp [ledgerEntry, transferFails, hlink, he, hd, ledgerFailed]
      · right; left
        simp [ledgerEntry, hlink, he, hd, ledgerDownloaded]
    | error err =>
      constructor
      · simp [ledgerEntry, transferFails, hlink, he, hd, ledgerFailed]
      · left
        simp [ledgerEntry, hlink, he, hd, ledgerFailed]

/-- C5: for a work item whose attachment collection is consistent (total =
number of elements), every download link object present, and exactly one
attachment whose transfer is attempted and fails, the operation returns a
success-level response whose ledger has one entry per attachment in
collection order, exactly one of them marked failed and every entry marked
failed, downloaded or skipped; the operation never aborts early. -/
theorem c5_partial_failure_ledger (workPackageId : Int)
    (resp : AttachmentCollectionResponse)
    (downloadFile : String → String → Except String Unit) (tmpdir : String)
    (htotal : resp.total = resp._embedded.elements.length)
    (hlinks : ∀ a ∈ resp._embedded.elements,
        (a._links.staticDownloadLocation).isSome = true)
    (hone : resp._embedded.elements.countP
        (transferFails downloadFile
          (tmpdir ++ "/openproject/" ++ toString workPackageId)) = 1) :
    (download_work_package_attachments workPackageId (Except.ok resp)
        downloadFile tmpdir).response.isError = false
    ∧ (download_work_package_attachments workPackageId (Except.ok resp)
        downloadFile tmpdir).downloadResults
      = resp._embedded.elements.map (ledgerEntry downloadFile
          (tmpdir ++ "/openproject/" ++ toString workPackageId))
    ∧ (download_work_package_attachments workPackageId (Except.ok resp)
        downloadFile tmpdir).downloadResults.length
      = resp._embedded.elements.length
    ∧ (download_work_package_attachments workPackageId (Except.ok resp)
        downloadFile tmpdir).downloadResults.countP ledgerFailed = 1
    ∧ ∀ r ∈ (download_work_package_attachments workPackageId (Except.ok resp)
        downloadFile tmpdir).downloadResults,
        ledgerFailed r = true ∨ ledgerDownloaded r = true
          ∨ ledgerSkipped r = true := by
  have hne : resp._embedded.elements ≠ [] := by
    intro hnil
    rw [hnil] at hone
    simp at hone
  have htz : ¬ resp.total = 0 := by
    rw [htotal]
    intro hz
    exact hne (List.eq_nil_of_length_eq_zero (by exact_mod_cast hz))
  have hproc := processAttachments_ok downloadFile
    (tmpdir ++ "/openproject/" ++ toString workPackageId)
    resp._embedded.elements hlinks
  have hdl : (download_work_package_attachments workPackageId (Except.ok resp)
      downloadFile tmpdir).downloadResults
      = resp._embedded.elements.map (ledgerEntry downloadFile
          (tmpdir ++ "/openproject/" ++ toString workPackageId)) := by
    simp [download_work_package_attachments, htz, hproc]
  refine ⟨?_, hdl, ?_, ?_, ?_⟩
  · simp [download_work_package_attachments, htz, hproc]
  · rw [hdl, List.length_map]
  · rw [hdl, List.countP_map]
    rw [← hone]
    apply List.countP_congr
    intro a ha
    have hc := (ledgerEntry_classified downloadFile
      (tmpdir ++ "/openproject/" ++ toString workPackageId) a (hlinks a ha)).1
    simp [Function.comp, hc]
  · rw [hdl]
    intro r hr
    obtain ⟨a, ha, rfl⟩ := List.mem_map.mp hr
    exact (ledgerEntry_classified downloadFile
      (tmpdir ++ "/openproject/" ++ toString workPackageId) a (hlinks a ha)).2

/-- A three-attachment collection: two downloadable, one with an empty
download URL (skipped). -/
def sampleAttachments : AttachmentCollectionResponse :=
  ⟨3, ⟨[⟨1, "a.txt", 10, "text/plain", ⟨some ⟨"/dl/1"⟩⟩⟩,
        ⟨2, "b.txt", 20, "text/plain", ⟨some ⟨"/dl/2"⟩⟩⟩,
        ⟨3, "c.txt", 30, "text/plain", ⟨some ⟨""⟩⟩⟩]⟩⟩

/-- A transfer oracle that fails exactly on the second download URL. -/
def sampleDownloadOracle : String → String → Except String Unit :=
  fun url _ =>
    if url = "/dl/2" then Except.error ("socket hang up") else Except.ok ()

/-- Witness for C5: three attachments (one with an empty download URL, so
skipped), with the transfer of the second failing; ledger of length 3 with
exactly one failed entry. -/
theorem c5_partial_failure_ledger_witness :
    sampleAttachments.total = sampleAttachments._embedded.elements.length
    ∧ (download_work_package_attachments 9 (Except.ok sampleAttachments)
        sampleDownloadOracle ("/tmp")).response.isError = false
    ∧ (download_work_package_attachments 9 (Except.ok sampleAttachments)
        sampleDownloadOracle ("/tmp")).downloadResults.length = 3
    ∧ (download_work_package_attachments 9 (Except.ok sampleAttachments)
        sampleDownloadOracle ("/tmp")).downloadResults.countP ledgerFailed
      = 1 := by
  have h := c5_partial_failure_ledger 9 sampleAttachments sampleDownloadOracle
    ("/tmp") (by decide) (by decide) (by decide)
  exact ⟨by decide, h.1, h.2.2.1.trans (by decide), h.2.2.2.1⟩

/-- C6: for a work item with zero attachments, the operation returns a
success payload explicitly stating none were found, builds no ledger or
file mapping, and never performs the scratch-directory creation step. -/
theorem c6_zero_attachments (workPackageId : Int)
    (resp : AttachmentCollectionResponse)
    (downloadFile : String → String → Except String Unit) (tmpdir : String)
    (h : resp.total = 0) :
    download_work_package_attachments workPackageId (Except.ok resp)
        downloadFile tmpdir
      = ⟨⟨"No attachments found for work package #"
            ++ toString workPackageId ++ ".", false⟩, [], [], false⟩ := by
  simp [download_work_package_attachments, h]

/-- Witness for C6 at a concrete input: an empty collection for item 7. -/
theorem c6_zero_attachments_witness :
    ((⟨0, ⟨[]⟩⟩ : AttachmentCollectionResponse)).total = 0
    ∧ download_work_package_attachments 7
        (Except.ok (⟨0, ⟨[]⟩⟩ : AttachmentCollectionResponse))
        (fun _ _ => Except.ok ()) "/tmp"
      = ⟨⟨"No attachments found for work package #"
            ++ toString (7 : Int) ++ ".", false⟩, [], [], false⟩ :=
  ⟨rfl, c6_zero_attachments 7 ⟨0, ⟨[]⟩⟩ (fun _ _ => Except.ok ()) "/tmp" rfl⟩

/-- C4 (against the code as written): an attachment whose download link
object is absent does NOT yield a skipped ledger entry — the unguarded
`.href` access throws, the outer catch converts it to a whole-operation
failure, and the remaining attachments are not processed. The same
collection with the link object present but carrying an empty href is
skipped and processing continues, confirming the guarded path. -/
theorem c4_absent_link_crashes_operation :
    (download_work_package_attachments 11
        (Except.ok ⟨2, ⟨[⟨1, "a.txt", 10, "text/plain", ⟨none⟩⟩,
          ⟨2, "b.txt", 20, "text/plain", ⟨some ⟨"/dl/2"⟩⟩⟩]⟩⟩)
        (fun _ _ => Except.ok ()) "/tmp").response.isError = true
    ∧ (download_work_package_attachments 11
        (Except.ok ⟨2, ⟨[⟨1, "a.txt", 10, "text/plain", ⟨none⟩⟩,
          ⟨2, "b.txt", 20, "text/plain", ⟨some ⟨"/dl/2"⟩⟩⟩]⟩⟩)
        (fun _ _ => Except.ok ()) "/tmp").downloadResults = []
    ∧ (download_work_package_attachments 11
        (Except.ok ⟨2, ⟨[⟨1, "a.txt", 10, "text/plain", ⟨none⟩⟩,
          ⟨2, "b.txt", 20, "text/plain", ⟨some ⟨"/dl/2"⟩⟩⟩]⟩⟩)
        (fun _ _ => Except.ok ()) "/tmp").response.text
      = "Error processing attachments for work package #11: "
        ++ hrefTypeError
    ∧ (download_work_package_attachments 11
        (Except.ok ⟨2, ⟨[⟨1, "a.txt", 10, "text/plain", ⟨some ⟨""⟩⟩⟩,
          ⟨2, "b.txt", 20, "text/plain", ⟨some ⟨"/dl/2"⟩⟩⟩]⟩⟩)
        (fun _ _ => Except.ok ()) "/tmp").downloadResults
      = ["⚠️ Skipped a.txt (ID: 1): Download URL not available",
         "✅ Downloaded b.txt (ID: 2)"] := by
  refine ⟨by decide, by decide, ?_, by decide⟩
  decide

end OpenProjectMCP
